import Mathlib

/-!
Shallow embedding of `src/utils/OrbitCamera.ts` (the orbit-camera controller
of the Gaussian-splat viewer). JavaScript numbers are modelled as real
numbers; the pitch bounds, whose defaults are `-Infinity` / `Infinity` in the
source, are modelled by a dedicated finite-or-infinite type. The playcanvas
entity is modelled by the arguments the controller passes to it:
`setPosition(x, y, z)` and `lookAt(target, up)`.
-/

/-- A 3-component vector, modelling `pc.Vec3`. -/
structure Vec3 where
  x : ℝ
  y : ℝ
  z : ℝ

/-- Cross product of two 3-vectors (the formula the source writes out
componentwise at lines 221-223). -/
def cross (a b : Vec3) : Vec3 :=
  ⟨a.y * b.z - a.z * b.y, a.z * b.x - a.x * b.z, a.x * b.y - a.y * b.x⟩

/-- Vector normalization, modelling `pc.Vec3.normalize`: a vector of zero
length is returned unchanged, otherwise each component is divided by the
length. -/
noncomputable def Vec3.normalize (v : Vec3) : Vec3 :=
  let lengthSq := v.x * v.x + v.y * v.y + v.z * v.z
  if lengthSq > 0 then
    let invLength := 1 / Real.sqrt lengthSq
    ⟨v.x * invLength, v.y * invLength, v.z * invLength⟩
  else v

/-- The render-target handle (`pc.Entity` camera): the position last passed to
`setPosition` and the target point and up vector last passed to `lookAt`. -/
structure Camera where
  position : Vec3
  lookTarget : Vec3
  lookUp : Vec3

/-- A JavaScript number used as a pitch bound: finite, or `-Infinity` /
`Infinity` (the source's defaults at lines 47-48). -/
inductive PitchBound where
  | negInf : PitchBound
  | num : ℝ → PitchBound
  | posInf : PitchBound

/-- The `isFinite` test of JavaScript, restricted to pitch bounds. -/
def PitchBound.isFinite : PitchBound → Bool
  | .num _ => true
  | _ => false

/-- The real value of a finite pitch bound (only ever used under an
`isFinite` guard, mirroring the source). -/
def PitchBound.val : PitchBound → ℝ
  | .num v => v
  | _ => 0

/-- A touch point's client coordinates. -/
structure Touch where
  clientX : ℝ
  clientY : ℝ

/-- The `OrbitCameraOptions` interface (lines 3-14): every field optional. -/
structure OrbitCameraOptions where
  distance : Option ℝ := none
  pitch : Option ℝ := none
  yaw : Option ℝ := none
  mouseSpeed : Option ℝ := none
  wheelSpeed : Option ℝ := none
  panSpeed : Option ℝ := none
  minDistance : Option ℝ := none
  maxDistance : Option ℝ := none
  minPitch : Option PitchBound := none
  maxPitch : Option PitchBound := none

/-- The full mutable state of an `OrbitCamera` instance: the class fields
(lines 17-33) plus the closure variable `lastTouchDistance` of
`setupEventListeners` (line 143). -/
structure OrbitCamera where
  camera : Camera
  target : Vec3
  distance : ℝ
  pitch : ℝ
  yaw : ℝ
  mouseSpeed : ℝ
  wheelSpeed : ℝ
  panSpeed : ℝ
  minDistance : ℝ
  maxDistance : ℝ
  minPitch : PitchBound
  maxPitch : PitchBound
  isDragging : Bool
  isPanning : Bool
  lastMouseX : ℝ
  lastMouseY : ℝ
  lastTouchDistance : Option ℝ

/-- The `pc.math.DEG_TO_RAD` constant. -/
noncomputable def DEG_TO_RAD : ℝ := Real.pi / 180

/-- The private `updateCameraPosition` method (lines 195-229): spherical
placement of the camera around the target, then `lookAt` with an up vector
derived as `normalize(forward × right)`. -/
noncomputable def updateCameraPosition (s : OrbitCamera) : OrbitCamera :=
  let pitchRad := s.pitch * DEG_TO_RAD
  let yawRad := s.yaw * DEG_TO_RAD
  let x := s.target.x + s.distance * Real.sin yawRad * Real.cos pitchRad
  let y := s.target.y + s.distance * Real.sin pitchRad
  let z := s.target.z + s.distance * Real.cos yawRad * Real.cos pitchRad
  let rightX := Real.cos yawRad
  let rightY : ℝ := 0
  let rightZ := -Real.sin yawRad
  let forwardX := s.target.x - x
  let forwardY := s.target.y - y
  let forwardZ := s.target.z - z
  let upX := forwardY * rightZ - forwardZ * rightY
  let upY := forwardZ * rightX - forwardX * rightZ
  let upZ := forwardX * rightY - forwardY * rightX
  let up := Vec3.normalize ⟨upX, upY, upZ⟩
  { s with camera := { position := ⟨x, y, z⟩, lookTarget := s.target, lookUp := up } }

/-- The constructor (lines 35-52): option defaults, target fixed at the
origin, then an immediate `updateCameraPosition`. -/
noncomputable def OrbitCamera.construct (camera : Camera)
    (options : OrbitCameraOptions) : OrbitCamera :=
  updateCameraPosition
    { camera := camera
      target := ⟨0, 0, 0⟩
      distance := options.distance.getD 5
      pitch := options.pitch.getD 0
      yaw := options.yaw.getD 0
      mouseSpeed := options.mouseSpeed.getD 0.3
      wheelSpeed := options.wheelSpeed.getD 0.1
      panSpeed := options.panSpeed.getD 0.01
      minDistance := options.minDistance.getD 1
      maxDistance := options.maxDistance.getD 100
      minPitch := options.minPitch.getD PitchBound.negInf
      maxPitch := options.maxPitch.getD PitchBound.posInf
      isDragging := false
      isPanning := false
      lastMouseX := 0
      lastMouseY := 0
      lastTouchDistance := none }

/-- The `mousedown` handler (lines 58-68). -/
def mousedown (s : OrbitCamera) (button : ℕ) (shiftKey : Bool)
    (clientX clientY : ℝ) : OrbitCamera :=
  if button = 0 then
    let s' := if shiftKey then { s with isPanning := true }
              else { s with isDragging := true }
    { s' with lastMouseX := clientX, lastMouseY := clientY }
  else s

/-- The `mousemove` handler (lines 71-118): pan branch, rotate branch, or
no-op. -/
noncomputable def mousemove (s : OrbitCamera) (clientX clientY : ℝ) :
    OrbitCamera :=
  if s.isPanning then
    let deltaX := clientX - s.lastMouseX
    let deltaY := clientY - s.lastMouseY
    let pitchRad := s.pitch * DEG_TO_RAD
    let yawRad := s.yaw * DEG_TO_RAD
    let rightX := Real.cos yawRad
    let rightZ := -Real.sin yawRad
    let upX := -Real.sin yawRad * Real.sin pitchRad
    let upY := Real.cos pitchRad
    let upZ := -Real.cos yawRad * Real.sin pitchRad
    let panScale := s.panSpeed * s.distance
    let target' : Vec3 :=
      ⟨s.target.x + (rightX * deltaX * panScale - upX * deltaY * panScale),
       s.target.y - upY * deltaY * panScale,
       s.target.z + (rightZ * deltaX * panScale - upZ * deltaY * panScale)⟩
    updateCameraPosition
      { s with target := target', lastMouseX := clientX, lastMouseY := clientY }
  else if s.isDragging then
    let deltaX := clientX - s.lastMouseX
    let deltaY := clientY - s.lastMouseY
    let yaw' := s.yaw - deltaX * s.mouseSpeed
    let pitch0 := s.pitch - deltaY * s.mouseSpeed
    let pitch' := if s.minPitch.isFinite && s.maxPitch.isFinite then
        max s.minPitch.val (min s.maxPitch.val pitch0)
      else pitch0
    updateCameraPosition
      { s with yaw := yaw', pitch := pitch',
               lastMouseX := clientX, lastMouseY := clientY }
  else s

/-- The `mouseup` handler (lines 121-126). -/
def mouseup (s : OrbitCamera) (button : ℕ) : OrbitCamera :=
  if button = 0 then { s with isDragging := false, isPanning := false } else s

/-- The `mouseleave` handler (lines 129-132). -/
def mouseleave (s : OrbitCamera) : OrbitCamera :=
  { s with isDragging := false, isPanning := false }

/-- The `wheel` handler (lines 135-140). -/
noncomputable def wheel (s : OrbitCamera) (deltaY : ℝ) : OrbitCamera :=
  let distance0 := s.distance + deltaY * s.wheelSpeed
  updateCameraPosition
    { s with distance := max s.minDistance (min s.maxDistance distance0) }

/-- The `touchstart` handler (lines 145-155). -/
noncomputable def touchstart (s : OrbitCamera) (touches : List Touch) :
    OrbitCamera :=
  match touches with
  | [t] =>
    { s with isDragging := true, lastMouseX := t.clientX, lastMouseY := t.clientY }
  | [t0, t1] =>
    let dx := t0.clientX - t1.clientX
    let dy := t0.clientY - t1.clientY
    { s with lastTouchDistance := some (Real.sqrt (dx * dx + dy * dy)) }
  | _ => s

/-- The `touchmove` handler (lines 157-187): single-touch rotate branch,
two-touch pinch branch, or no-op. -/
noncomputable def touchmove (s : OrbitCamera) (touches : List Touch) :
    OrbitCamera :=
  match touches with
  | [t] =>
    if s.isDragging then
      let deltaX := t.clientX - s.lastMouseX
      let deltaY := t.clientY - s.lastMouseY
      let yaw' := s.yaw - deltaX * s.mouseSpeed
      let pitch0 := s.pitch - deltaY * s.mouseSpeed
      let pitch' := if s.minPitch.isFinite && s.maxPitch.isFinite then
          max s.minPitch.val (min s.maxPitch.val pitch0)
        else pitch0
      updateCameraPosition
        { s with yaw := yaw', pitch := pitch',
                 lastMouseX := t.clientX, lastMouseY := t.clientY }
    else s
  | [t0, t1] =>
    match s.lastTouchDistance with
    | some lastDist =>
      let dx := t0.clientX - t1.clientX
      let dy := t0.clientY - t1.clientY
      let newDistance := Real.sqrt (dx * dx + dy * dy)
      let delta := newDistance - lastDist
      let distance0 := s.distance - delta * 0.01
      updateCameraPosition
        { s with distance := max s.minDistance (min s.maxDistance distance0),
                 lastTouchDistance := some newDistance }
    | none => s
  | _ => s

/-- The `touchend` handler (lines 189-192). -/
def touchend (s : OrbitCamera) : OrbitCamera :=
  { s with isDragging := false, lastTouchDistance := none }

/-- The public `setTarget` method (lines 231-234). -/
noncomputable def setTarget (s : OrbitCamera) (t : Vec3) : OrbitCamera :=
  updateCameraPosition { s with target := t }

/-- The public `setDistance` method (lines 236-239). -/
noncomputable def setDistance (s : OrbitCamera) (d : ℝ) : OrbitCamera :=
  updateCameraPosition
    { s with distance := max s.minDistance (min s.maxDistance d) }

/-- The public `reset` method (lines 241-246). -/
noncomputable def reset (s : OrbitCamera) : OrbitCamera :=
  updateCameraPosition { s with pitch := 0, yaw := 0, distance := 5 }

/-- Modelled from the spec: a construction that "takes a render-target
handle, an initial target point (default origin)" and a configuration
record, with "the controller's initial orbit target" equal to that supplied
point. The source constructor has no such parameter; this definition exists
only to compare the spec's constructor against the source's. -/
noncomputable def constructSpec (camera : Camera) (initialTarget : Vec3)
    (options : OrbitCameraOptions) : OrbitCamera :=
  updateCameraPosition
    { OrbitCamera.construct camera options with target := initialTarget }

/-! Projection lemmas: `updateCameraPosition` rewrites only the `camera`
field. -/

@[simp] theorem updateCameraPosition_target (s : OrbitCamera) :
    (updateCameraPosition s).target = s.target := rfl

@[simp] theorem updateCameraPosition_distance (s : OrbitCamera) :
    (updateCameraPosition s).distance = s.distance := rfl

@[simp] theorem updateCameraPosition_pitch (s : OrbitCamera) :
    (updateCameraPosition s).pitch = s.pitch := rfl

@[simp] theorem updateCameraPosition_yaw (s : OrbitCamera) :
    (updateCameraPosition s).yaw = s.yaw := rfl

@[simp] theorem updateCameraPosition_minDistance (s : OrbitCamera) :
    (updateCameraPosition s).minDistance = s.minDistance := rfl

@[simp] theorem updateCameraPosition_maxDistance (s : OrbitCamera) :
    (updateCameraPosition s).maxDistance = s.maxDistance := rfl

@[simp] theorem updateCameraPosition_minPitch (s : OrbitCamera) :
    (updateCameraPosition s).minPitch = s.minPitch := rfl

@[simp] theorem updateCameraPosition_maxPitch (s : OrbitCamera) :
    (updateCameraPosition s).maxPitch = s.maxPitch := rfl

@[simp] theorem updateCameraPosition_lastTouchDistance (s : OrbitCamera) :
    (updateCameraPosition s).lastTouchDistance = s.lastTouchDistance := rfl

/-! Concrete states used by witnesses and counterexamples. -/

/-- A concrete camera handle. -/
def cam0 : Camera := ⟨⟨0, 0, 0⟩, ⟨0, 0, 0⟩, ⟨0, 1, 0⟩⟩

/-- A concrete controller state with the constructor's default
configuration, idle interaction flags, and a recorded pinch separation of
100. -/
def sBase : OrbitCamera :=
  { camera := cam0
    target := ⟨0, 0, 0⟩
    distance := 5
    pitch := 0
    yaw := 0
    mouseSpeed := 0.3
    wheelSpeed := 0.1
    panSpeed := 0.01
    minDistance := 1
    maxDistance := 100
    minPitch := PitchBound.negInf
    maxPitch := PitchBound.posInf
    isDragging := false
    isPanning := false
    lastMouseX := 0
    lastMouseY := 0
    lastTouchDistance := some 100 }

/-- A rotating-mode state whose finite pitch bounds are reversed
(minPitch = 10 above maxPitch = 0). -/
def sRev : OrbitCamera :=
  { sBase with minPitch := PitchBound.num 10, maxPitch := PitchBound.num 0,
               isDragging := true }

/-- A rotating-mode state with well-ordered finite pitch bounds. -/
def sDrag : OrbitCamera :=
  { sBase with minPitch := PitchBound.num (-85), maxPitch := PitchBound.num 85,
               isDragging := true }

/-- A panning-mode state at yaw = 0, pitch = 0. -/
def sPan : OrbitCamera := { sBase with isPanning := true }

/-- A concrete state whose minDistance = 10 lies above reset's fixed
distance 5. -/
def sMin10 : OrbitCamera := { sBase with minDistance := 10 }

/-- C3: for every state, the placement computation sets the camera position
by the spherical-to-Cartesian formula with yaw and pitch converted from
degrees to radians; in particular the default construction (distance 5,
pitch 0, yaw 0, target at the origin) places the camera at (0, 0, 5) looking
at (0, 0, 0). -/
theorem C3_placement (s : OrbitCamera) :
    (updateCameraPosition s).camera.position =
      ⟨s.target.x + s.distance * Real.sin (s.yaw * DEG_TO_RAD) *
          Real.cos (s.pitch * DEG_TO_RAD),
       s.target.y + s.distance * Real.sin (s.pitch * DEG_TO_RAD),
       s.target.z + s.distance * Real.cos (s.yaw * DEG_TO_RAD) *
          Real.cos (s.pitch * DEG_TO_RAD)⟩ ∧
    (OrbitCamera.construct cam0 {}).camera.position = ⟨0, 0, 5⟩ ∧
    (OrbitCamera.construct cam0 {}).camera.lookTarget = ⟨0, 0, 0⟩ := by
  refine ⟨rfl, ?_, rfl⟩
  show (⟨(0 : ℝ) + 5 * Real.sin (0 * DEG_TO_RAD) * Real.cos (0 * DEG_TO_RAD),
         (0 : ℝ) + 5 * Real.sin (0 * DEG_TO_RAD),
         (0 : ℝ) + 5 * Real.cos (0 * DEG_TO_RAD) * Real.cos (0 * DEG_TO_RAD)⟩ :
      Vec3) = ⟨0, 0, 5⟩
  simp [Vec3.mk.injEq]

/-- C4: for every state, the placement computation derives the camera up
vector as normalize(forward × right) with right = (cos yaw, 0, −sin yaw) and
forward = target − camera position, and orients the camera to look at the
target with that up vector. -/
theorem C4_up_vector (s : OrbitCamera) :
    (updateCameraPosition s).camera.lookUp =
      Vec3.normalize (cross
        ⟨s.target.x - (updateCameraPosition s).camera.position.x,
         s.target.y - (updateCameraPosition s).camera.position.y,
         s.target.z - (updateCameraPosition s).camera.position.z⟩
        ⟨Real.cos (s.yaw * DEG_TO_RAD), 0, -Real.sin (s.yaw * DEG_TO_RAD)⟩) ∧
    (updateCameraPosition s).camera.lookTarget = s.target :=
  ⟨rfl, rfl⟩

/-- C5 counterexample: the source constructor takes no initial target point;
constructing with the default options yields target (0, 0, 0), which differs
from the spec-modelled construction with supplied target (1, 2, 3). -/
theorem C5_target_counterexample :
    (OrbitCamera.construct cam0 {}).target = ⟨0, 0, 0⟩ ∧
    (constructSpec cam0 ⟨1, 2, 3⟩ {}).target = ⟨1, 2, 3⟩ ∧
    (OrbitCamera.construct cam0 {}).target ≠
      (constructSpec cam0 ⟨1, 2, 3⟩ {}).target := by
  refine ⟨rfl, rfl, ?_⟩
  rw [show (OrbitCamera.construct cam0 {}).target = ⟨0, 0, 0⟩ from rfl,
      show (constructSpec cam0 ⟨1, 2, 3⟩ {}).target = ⟨1, 2, 3⟩ from rfl]
  simp [Vec3.mk.injEq]

/-- C5 amended: construction takes no initial target point; for every camera
handle and every options record, the initial orbit target is the origin. -/
theorem C5_target_amended (camera : Camera) (options : OrbitCameraOptions) :
    (OrbitCamera.construct camera options).target = ⟨0, 0, 0⟩ := rfl

/-- C6: for every prior state, reset yields pitch = 0, yaw = 0, distance = 5
and recomputes the placement from that state. -/
theorem C6_reset (s : OrbitCamera) :
    (reset s).pitch = 0 ∧ (reset s).yaw = 0 ∧ (reset s).distance = 5 ∧
    reset s = updateCameraPosition { s with pitch := 0, yaw := 0, distance := 5 } :=
  ⟨rfl, rfl, rfl, rfl⟩

/-- C9: a mouse-move event delivered while neither panning nor rotating
leaves the whole state, the camera included, unchanged. -/
theorem C9_idle_noop (s : OrbitCamera) (clientX clientY : ℝ)
    (hPan : s.isPanning = false) (hDrag : s.isDragging = false) :
    mousemove s clientX clientY = s := by
  simp [mousemove, hPan, hDrag]

/-- C9 witness: the idle no-op at a concrete state and pointer position. -/
theorem C9_idle_noop_witness : mousemove sBase 7 9 = sBase :=
  C9_idle_noop sBase 7 9 rfl rfl

/-- C10: every zoom operation (wheel, two-touch pinch, setDistance) leaves
target, yaw and pitch unchanged; wheel and setDistance also leave the
recorded pinch separation unchanged. -/
theorem C10_zoom_frame (s : OrbitCamera) (deltaY d : ℝ) (t0 t1 : Touch) :
    ((wheel s deltaY).target = s.target ∧ (wheel s deltaY).yaw = s.yaw ∧
     (wheel s deltaY).pitch = s.pitch ∧
     (wheel s deltaY).lastTouchDistance = s.lastTouchDistance) ∧
    ((touchmove s [t0, t1]).target = s.target ∧
     (touchmove s [t0, t1]).yaw = s.yaw ∧
     (touchmove s [t0, t1]).pitch = s.pitch) ∧
    ((setDistance s d).target = s.target ∧ (setDistance s d).yaw = s.yaw ∧
     (setDistance s d).pitch = s.pitch ∧
     (setDistance s d).lastTouchDistance = s.lastTouchDistance) := by
  refine ⟨⟨rfl, rfl, rfl, rfl⟩, ?_, rfl, rfl, rfl, rfl⟩
  rcases h : s.lastTouchDistance with _ | L <;> simp [touchmove, h]

/-- C1 counterexample: construction does not clamp the distance option, so a
controller constructed with distance 200 under the default bounds
(minDistance 1, maxDistance 100) violates the claimed invariant immediately;
likewise reset stores the fixed distance 5 without clamping, so with
minDistance raised to 10 the state after reset violates the invariant. -/
theorem C1_invariant_counterexample :
    ((OrbitCamera.construct cam0 { distance := some 200 }).distance = 200 ∧
     (OrbitCamera.construct cam0 { distance := some 200 }).maxDistance = 100 ∧
     ¬ ((OrbitCamera.construct cam0 { distance := some 200 }).distance ≤
         (OrbitCamera.construct cam0 { distance := some 200 }).maxDistance)) ∧
    ((reset sMin10).distance = 5 ∧ (reset sMin10).minDistance = 10 ∧
     ¬ ((reset sMin10).minDistance ≤ (reset sMin10).distance)) := by
  refine ⟨⟨rfl, rfl, ?_⟩, rfl, rfl, ?_⟩
  · rw [show (OrbitCamera.construct cam0 { distance := some 200 }).distance = 200
          from rfl,
        show (OrbitCamera.construct cam0 { distance := some 200 }).maxDistance = 100
          from rfl]
    norm_num
  · rw [show (reset sMin10).distance = 5 from rfl,
        show (reset sMin10).minDistance = 10 from rfl]
    norm_num

/-- C1 amended: when minDistance ≤ maxDistance, every distance-clamping
operation (wheel, setDistance, two-touch pinch) establishes
minDistance ≤ distance ≤ maxDistance; rotate/pan/idle mouse moves,
single-touch moves and setTarget leave distance unchanged; reset stores the
fixed distance 5 without clamping (and so, like construction, may violate
the bounds). -/
theorem C1_invariant_amended (s : OrbitCamera)
    (deltaY d clientX clientY L : ℝ) (t t0 t1 : Touch) (p : Vec3)
    (hminmax : s.minDistance ≤ s.maxDistance)
    (hL : s.lastTouchDistance = some L) :
    (s.minDistance ≤ (wheel s deltaY).distance ∧
     (wheel s deltaY).distance ≤ s.maxDistance) ∧
    (s.minDistance ≤ (setDistance s d).distance ∧
     (setDistance s d).distance ≤ s.maxDistance) ∧
    (s.minDistance ≤ (touchmove s [t0, t1]).distance ∧
     (touchmove s [t0, t1]).distance ≤ s.maxDistance) ∧
    (mousemove s clientX clientY).distance = s.distance ∧
    (touchmove s [t]).distance = s.distance ∧
    (setTarget s p).distance = s.distance ∧
    (reset s).distance = 5 := by
  have hclamp : ∀ x : ℝ,
      s.minDistance ≤ max s.minDistance (min s.maxDistance x) ∧
      max s.minDistance (min s.maxDistance x) ≤ s.maxDistance := fun x =>
    ⟨le_max_left _ _, max_le hminmax (min_le_left _ _)⟩
  refine ⟨?_, ?_, ?_, ?_, ?_, rfl, rfl⟩
  · simpa [wheel] using hclamp (s.distance + deltaY * s.wheelSpeed)
  · simpa [setDistance] using hclamp d
  · have h := hclamp (s.distance -
      (Real.sqrt ((t0.clientX - t1.clientX) * (t0.clientX - t1.clientX) +
        (t0.clientY - t1.clientY) * (t0.clientY - t1.clientY)) - L) * 0.01)
    simpa [touchmove, hL] using h
  · by_cases hp : s.isPanning <;> by_cases hd : s.isDragging <;>
      simp [mousemove, hp, hd]
  · by_cases hd : s.isDragging <;> simp [touchmove, hd]

/-- C1 witness: the amended invariant at a concrete state with default
bounds, for a wheel step, a setDistance call, a pinch step, a mouse move, a
single-touch move, a setTarget call and a reset. -/
theorem C1_invariant_witness :
    (sBase.minDistance ≤ (wheel sBase 3).distance ∧
     (wheel sBase 3).distance ≤ sBase.maxDistance) ∧
    (sBase.minDistance ≤ (setDistance sBase 7).distance ∧
     (setDistance sBase 7).distance ≤ sBase.maxDistance) ∧
    (sBase.minDistance ≤ (touchmove sBase [⟨0, 0⟩, ⟨3, 4⟩]).distance ∧
     (touchmove sBase [⟨0, 0⟩, ⟨3, 4⟩]).distance ≤ sBase.maxDistance) ∧
    (mousemove sBase 2 2).distance = sBase.distance ∧
    (touchmove sBase [⟨4, 5⟩]).distance = sBase.distance ∧
    (setTarget sBase ⟨1, 1, 1⟩).distance = sBase.distance ∧
    (reset sBase).distance = 5 :=
  C1_invariant_amended sBase 3 7 2 2 100 ⟨4, 5⟩ ⟨0, 0⟩ ⟨3, 4⟩ ⟨1, 1, 1⟩
    (by norm_num [sBase]) rfl

/-- C2 counterexample: with both pitch bounds finite but reversed
(minPitch = 10 above maxPitch = 0), a rotate-drag step clamps pitch to
max(minPitch, min(maxPitch, ·)) = 10, which is not ≤ maxPitch, so the
claimed interval fails. -/
theorem C2_rotate_counterexample :
    sRev.isPanning = false ∧ sRev.isDragging = true ∧
    sRev.minPitch.isFinite = true ∧ sRev.maxPitch.isFinite = true ∧
    ¬ ((mousemove sRev 0 0).pitch ≤ sRev.maxPitch.val) := by
  refine ⟨rfl, rfl, rfl, rfl, ?_⟩
  have h : (mousemove sRev 0 0).pitch = 10 := by
    simp [mousemove, sRev, sBase, PitchBound.isFinite, PitchBound.val]
  rw [h, show sRev.maxPitch.val = 0 from rfl]
  norm_num

/-- C2 amended: every rotate-drag step (mouse or single-touch) sets
yaw := yaw − dx·mouseSpeed; when both pitch bounds are finite, pitch becomes
max(minPitch, min(maxPitch, pitch − dy·mouseSpeed)), which lies in
[minPitch, maxPitch] provided minPitch ≤ maxPitch; when either bound is
infinite, pitch keeps the unclamped value pitch − dy·mouseSpeed. -/
theorem C2_rotate_amended (s : OrbitCamera) (clientX clientY : ℝ)
    (hPan : s.isPanning = false) (hDrag : s.isDragging = true) :
    ((mousemove s clientX clientY).yaw =
        s.yaw - (clientX - s.lastMouseX) * s.mouseSpeed ∧
     (touchmove s [⟨clientX, clientY⟩]).yaw =
        s.yaw - (clientX - s.lastMouseX) * s.mouseSpeed) ∧
    ((s.minPitch.isFinite && s.maxPitch.isFinite) = true →
      ((mousemove s clientX clientY).pitch =
          max s.minPitch.val (min s.maxPitch.val
            (s.pitch - (clientY - s.lastMouseY) * s.mouseSpeed)) ∧
       (touchmove s [⟨clientX, clientY⟩]).pitch =
          max s.minPitch.val (min s.maxPitch.val
            (s.pitch - (clientY - s.lastMouseY) * s.mouseSpeed))) ∧
      (s.minPitch.val ≤ s.maxPitch.val →
        s.minPitch.val ≤ (mousemove s clientX clientY).pitch ∧
        (mousemove s clientX clientY).pitch ≤ s.maxPitch.val ∧
        s.minPitch.val ≤ (touchmove s [⟨clientX, clientY⟩]).pitch ∧
        (touchmove s [⟨clientX, clientY⟩]).pitch ≤ s.maxPitch.val)) ∧
    ((s.minPitch.isFinite && s.maxPitch.isFinite) = false →
      (mousemove s clientX clientY).pitch =
        s.pitch - (clientY - s.lastMouseY) * s.mouseSpeed ∧
      (touchmove s [⟨clientX, clientY⟩]).pitch =
        s.pitch - (clientY - s.lastMouseY) * s.mouseSpeed) := by
  refine ⟨⟨?_, ?_⟩, fun hfin => ⟨⟨?_, ?_⟩, fun hord => ?_⟩, fun hfin => ⟨?_, ?_⟩⟩
  · simp [mousemove, hPan, hDrag]
  · simp [touchmove, hDrag]
  · simp [mousemove, hPan, hDrag, hfin]
  · simp [touchmove, hDrag, hfin]
  · have hm : (mousemove s clientX clientY).pitch =
        max s.minPitch.val (min s.maxPitch.val
          (s.pitch - (clientY - s.lastMouseY) * s.mouseSpeed)) := by
      simp [mousemove, hPan, hDrag, hfin]
    have ht : (touchmove s [⟨clientX, clientY⟩]).pitch =
        max s.minPitch.val (min s.maxPitch.val
          (s.pitch - (clientY - s.lastMouseY) * s.mouseSpeed)) := by
      simp [touchmove, hDrag, hfin]
    rw [hm, ht]
    exact ⟨le_max_left _ _, max_le hord (min_le_left _ _),
           le_max_left _ _, max_le hord (min_le_left _ _)⟩
  · simp [mousemove, hPan, hDrag, hfin]
  · simp [touchmove, hDrag, hfin]

/-- C2 witness: the amended rotate-drag law at a concrete rotating state with
finite, well-ordered pitch bounds and pointer position (10, 20). -/
theorem C2_rotate_witness :
    ((mousemove sDrag 10 20).yaw =
        sDrag.yaw - (10 - sDrag.lastMouseX) * sDrag.mouseSpeed ∧
     (touchmove sDrag [⟨10, 20⟩]).yaw =
        sDrag.yaw - (10 - sDrag.lastMouseX) * sDrag.mouseSpeed) ∧
    ((sDrag.minPitch.isFinite && sDrag.maxPitch.isFinite) = true →
      ((mousemove sDrag 10 20).pitch =
          max sDrag.minPitch.val (min sDrag.maxPitch.val
            (sDrag.pitch - (20 - sDrag.lastMouseY) * sDrag.mouseSpeed)) ∧
       (touchmove sDrag [⟨10, 20⟩]).pitch =
          max sDrag.minPitch.val (min sDrag.maxPitch.val
            (sDrag.pitch - (20 - sDrag.lastMouseY) * sDrag.mouseSpeed))) ∧
      (sDrag.minPitch.val ≤ sDrag.maxPitch.val →
        sDrag.minPitch.val ≤ (mousemove sDrag 10 20).pitch ∧
        (mousemove sDrag 10 20).pitch ≤ sDrag.maxPitch.val ∧
        sDrag.minPitch.val ≤ (touchmove sDrag [⟨10, 20⟩]).pitch ∧
        (touchmove sDrag [⟨10, 20⟩]).pitch ≤ sDrag.maxPitch.val)) ∧
    ((sDrag.minPitch.isFinite && sDrag.maxPitch.isFinite) = false →
      (mousemove sDrag 10 20).pitch =
        sDrag.pitch - (20 - sDrag.lastMouseY) * sDrag.mouseSpeed ∧
      (touchmove sDrag [⟨10, 20⟩]).pitch =
        sDrag.pitch - (20 - sDrag.lastMouseY) * sDrag.mouseSpeed) :=
  C2_rotate_amended sDrag 10 20 rfl rfl

/-- C7: every pan step moves the target by right·dx·panScale − up·dy·panScale
with panScale = panSpeed·distance, right = (cos yaw, 0, −sin yaw) and
up = (−sin yaw·sin pitch, cos pitch, −cos yaw·sin pitch) recomputed from the
current yaw/pitch; at yaw = 0, pitch = 0 the target's z coordinate is
unchanged. -/
theorem C7_pan (s : OrbitCamera) (clientX clientY : ℝ)
    (hPan : s.isPanning = true) :
    ((mousemove s clientX clientY).target.x =
      s.target.x + (Real.cos (s.yaw * DEG_TO_RAD) * (clientX - s.lastMouseX) *
          (s.panSpeed * s.distance) -
        -Real.sin (s.yaw * DEG_TO_RAD) * Real.sin (s.pitch * DEG_TO_RAD) *
          (clientY - s.lastMouseY) * (s.panSpeed * s.distance)) ∧
     (mousemove s clientX clientY).target.y =
      s.target.y + (0 * (clientX - s.lastMouseX) * (s.panSpeed * s.distance) -
        Real.cos (s.pitch * DEG_TO_RAD) * (clientY - s.lastMouseY) *
          (s.panSpeed * s.distance)) ∧
     (mousemove s clientX clientY).target.z =
      s.target.z + (-Real.sin (s.yaw * DEG_TO_RAD) * (clientX - s.lastMouseX) *
          (s.panSpeed * s.distance) -
        -Real.cos (s.yaw * DEG_TO_RAD) * Real.sin (s.pitch * DEG_TO_RAD) *
          (clientY - s.lastMouseY) * (s.panSpeed * s.distance))) ∧
    (s.yaw = 0 → s.pitch = 0 →
      (mousemove s clientX clientY).target.z = s.target.z) := by
  have hx : (mousemove s clientX clientY).target.x =
      s.target.x + (Real.cos (s.yaw * DEG_TO_RAD) * (clientX - s.lastMouseX) *
          (s.panSpeed * s.distance) -
        -Real.sin (s.yaw * DEG_TO_RAD) * Real.sin (s.pitch * DEG_TO_RAD) *
          (clientY - s.lastMouseY) * (s.panSpeed * s.distance)) := by
    simp [mousemove, hPan]
  have hy : (mousemove s clientX clientY).target.y =
      s.target.y + (0 * (clientX - s.lastMouseX) * (s.panSpeed * s.distance) -
        Real.cos (s.pitch * DEG_TO_RAD) * (clientY - s.lastMouseY) *
          (s.panSpeed * s.distance)) := by
    simp [mousemove, hPan]
    ring
  have hz : (mousemove s clientX clientY).target.z =
      s.target.z + (-Real.sin (s.yaw * DEG_TO_RAD) * (clientX - s.lastMouseX) *
          (s.panSpeed * s.distance) -
        -Real.cos (s.yaw * DEG_TO_RAD) * Real.sin (s.pitch * DEG_TO_RAD) *
          (clientY - s.lastMouseY) * (s.panSpeed * s.distance)) := by
    simp [mousemove, hPan]
  refine ⟨⟨hx, hy, hz⟩, fun hyaw hpitch => ?_⟩
  rw [hz, hyaw, hpitch]
  simp

/-- C7 witness: the pan law at a concrete panning state with yaw = 0,
pitch = 0 and pointer position (10, 20). -/
theorem C7_pan_witness :
    ((mousemove sPan 10 20).target.x =
      sPan.target.x + (Real.cos (sPan.yaw * DEG_TO_RAD) * (10 - sPan.lastMouseX) *
          (sPan.panSpeed * sPan.distance) -
        -Real.sin (sPan.yaw * DEG_TO_RAD) * Real.sin (sPan.pitch * DEG_TO_RAD) *
          (20 - sPan.lastMouseY) * (sPan.panSpeed * sPan.distance)) ∧
     (mousemove sPan 10 20).target.y =
      sPan.target.y + (0 * (10 - sPan.lastMouseX) * (sPan.panSpeed * sPan.distance) -
        Real.cos (sPan.pitch * DEG_TO_RAD) * (20 - sPan.lastMouseY) *
          (sPan.panSpeed * sPan.distance)) ∧
     (mousemove sPan 10 20).target.z =
      sPan.target.z + (-Real.sin (sPan.yaw * DEG_TO_RAD) * (10 - sPan.lastMouseX) *
          (sPan.panSpeed * sPan.distance) -
        -Real.cos (sPan.yaw * DEG_TO_RAD) * Real.sin (sPan.pitch * DEG_TO_RAD) *
          (20 - sPan.lastMouseY) * (sPan.panSpeed * sPan.distance))) ∧
    (sPan.yaw = 0 → sPan.pitch = 0 →
      (mousemove sPan 10 20).target.z = sPan.target.z) :=
  C7_pan sPan 10 20 rfl

/-- C8: a two-touch move with a recorded pinch separation L sets
distance := clamp(minDistance, maxDistance, distance − (newSeparation − L)·0.01)
with the literal factor 0.01, and records the new separation; in particular
a pinch from separation 100 to 150 at distance 5 under the default bounds
decreases distance by 0.5. -/
theorem C8_pinch (s : OrbitCamera) (t0 t1 : Touch) (L : ℝ)
    (hL : s.lastTouchDistance = some L) :
    ((touchmove s [t0, t1]).distance =
        max s.minDistance (min s.maxDistance
          (s.distance -
            (Real.sqrt ((t0.clientX - t1.clientX) * (t0.clientX - t1.clientX) +
                (t0.clientY - t1.clientY) * (t0.clientY - t1.clientY)) - L) *
              0.01)) ∧
     (touchmove s [t0, t1]).lastTouchDistance =
        some (Real.sqrt ((t0.clientX - t1.clientX) * (t0.clientX - t1.clientX) +
          (t0.clientY - t1.clientY) * (t0.clientY - t1.clientY)))) ∧
    (touchmove sBase [⟨0, 0⟩, ⟨150, 0⟩]).distance = sBase.distance - 0.5 := by
  have hsqrt : Real.sqrt (((0 : ℝ) - 150) * (0 - 150) + (0 - 0) * (0 - 0)) = 150 := by
    rw [show ((0 : ℝ) - 150) * (0 - 150) + (0 - 0) * (0 - 0) = 150 ^ 2 by norm_num]
    exact Real.sqrt_sq (by norm_num)
  refine ⟨⟨?_, ?_⟩, ?_⟩
  · simp [touchmove, hL]
  · simp [touchmove, hL]
  · have h : (touchmove sBase [⟨0, 0⟩, ⟨150, 0⟩]).distance =
        max sBase.minDistance (min sBase.maxDistance
          (sBase.distance - (Real.sqrt (((0 : ℝ) - 150) * (0 - 150) +
            (0 - 0) * (0 - 0)) - 100) * 0.01)) := by
      simp [touchmove, show sBase.lastTouchDistance = some 100 from rfl]
    rw [h, hsqrt]
    rw [show sBase.distance = 5 from rfl, show sBase.minDistance = 1 from rfl,
        show sBase.maxDistance = 100 from rfl]
    norm_num

/-- C8 witness: the pinch law applied at the concrete state with recorded
separation 100 and touch points (0, 0) and (150, 0). -/
theorem C8_pinch_witness :
    ((touchmove sBase [⟨0, 0⟩, ⟨150, 0⟩]).distance =
        max sBase.minDistance (min sBase.maxDistance
          (sBase.distance - (Real.sqrt (((0 : ℝ) - 150) * (0 - 150) +
            ((0 : ℝ) - 0) * (0 - 0)) - 100) * 0.01)) ∧
     (touchmove sBase [⟨0, 0⟩, ⟨150, 0⟩]).lastTouchDistance =
        some (Real.sqrt (((0 : ℝ) - 150) * (0 - 150) + ((0 : ℝ) - 0) * (0 - 0)))) ∧
    (touchmove sBase [⟨0, 0⟩, ⟨150, 0⟩]).distance = sBase.distance - 0.5 :=
  C8_pinch sBase ⟨0, 0⟩ ⟨150, 0⟩ 100 rfl
